import Mathlib

/-!
Verification development for the Emoji-Wrapped repository.

The repository has two scripts:
* `combine_imessages.py` — the aggregator: recursively discovers CSV files,
  parses each, tags each row with a provenance column (`conversation_id`,
  the parent directory name), concatenates all successfully parsed files
  and writes the combined artifact.
* `emoji_wrapped.py` — the analyzer (`EmojiAnalyzer`): loads the combined
  CSV, validates required columns, filters rows to 2024 outgoing messages,
  extracts emoji characters from text, expands into a per-emoji-occurrence
  table with temporal features, and computes statistics and chart data.

The definitions below are a shallow embedding of that code: pandas
dataframes become Lists of records, thrown exceptions become `Option` /
`Except` error values, and the filesystem inputs become explicit arguments.
-/

namespace EmojiWrapped

/-! ## Aggregator model (`combine_imessages.py`) -/

/-- A raw row of one per-conversation CSV file, as parsed by `pd.read_csv`.
The analyzer-relevant content of cells is irrelevant to the aggregator, so a
row is an abstract list of cell strings. -/
structure RawRow where
  cells : List String
deriving DecidableEq, Repr

/-- One CSV file discovered by `base_path.rglob('*.csv')`: the name of its
immediate parent directory (used for the provenance column) and the result
of `pd.read_csv` on it — `none` models the exception caught at line 37 of
`combine_imessages.py`, `some rows` a successful parse. -/
structure CsvFile where
  parentDirName : String
  parseResult : Option (List RawRow)
deriving DecidableEq, Repr

/-- A row of the combined artifact: the original raw row together with the
provenance column `conversation_id` added by
`df['conversation_id'] = csv_file.parent.name`. -/
structure CombinedRow where
  row : RawRow
  conversation_id : String
deriving DecidableEq, Repr

/-- Processing of one discovered file inside the `try` block: on parse
success the file's rows are tagged with the parent directory name and the
dataframe is appended to `all_dfs`; on failure (`except` branch) the file is
skipped, contributing nothing. -/
def processFile (f : CsvFile) : Option (List CombinedRow) :=
  f.parseResult.map (fun rows =>
    rows.map (fun r => { row := r, conversation_id := f.parentDirName }))

/-- The accumulated list `all_dfs` after the processing loop: one tagged
dataframe per successfully parsed file, in discovery order. -/
def all_dfs (files : List CsvFile) : List (List CombinedRow) :=
  files.filterMap processFile

/-- `combine_csv_files`, the aggregator's main routine, as a function of the
discovered file list. `some l` means the combined artifact with rows `l`
(the result of `pd.concat(all_dfs, ignore_index=True)`) is written to
`combined_messages.csv`; `none` models the `else` branch that prints
"No CSV files were found or processed successfully." and writes nothing. -/
def combine_csv_files (files : List CsvFile) : Option (List CombinedRow) :=
  if (all_dfs files).isEmpty then none else some (all_dfs files).flatten

/-- The number of rows a file contributes when it parses successfully. -/
def rowCount (f : CsvFile) : Nat :=
  (f.parseResult.getD []).length

/-- The distinct values of the provenance column of a combined table, in
first-occurrence order. -/
def provenanceValues (l : List CombinedRow) : List String :=
  (l.map (fun r => r.conversation_id)).dedup

lemma all_dfs_nil : all_dfs [] = [] := rfl

lemma all_dfs_cons_some {f : CsvFile} {rows : List RawRow}
    (h : f.parseResult = some rows) (fs : List CsvFile) :
    all_dfs (f :: fs) =
      (rows.map (fun r => { row := r, conversation_id := f.parentDirName })) ::
        all_dfs fs := by
  simp [all_dfs, List.filterMap_cons, processFile, h]

lemma all_dfs_cons_none {f : CsvFile} (h : f.parseResult = none)
    (fs : List CsvFile) : all_dfs (f :: fs) = all_dfs fs := by
  simp [all_dfs, List.filterMap_cons, processFile, h]

lemma flatten_all_dfs_length (files : List CsvFile)
    (hp : ∀ f ∈ files, f.parseResult.isSome) :
    (all_dfs files).flatten.length = (files.map rowCount).sum := by
  induction files with
  | nil => simp [all_dfs]
  | cons f fs ih =>
      obtain ⟨rows, hrows⟩ := Option.isSome_iff_exists.mp (hp f (by simp))
      have hrest : ∀ g ∈ fs, g.parseResult.isSome := fun g hg => hp g (by simp [hg])
      simp [all_dfs_cons_some hrows, ih hrest, rowCount, hrows]

lemma mem_provenance {files : List CsvFile} {v : String}
    (h : v ∈ (all_dfs files).flatten.map (fun r => r.conversation_id)) :
    v ∈ files.map CsvFile.parentDirName := by
  induction files with
  | nil => simp [all_dfs] at h
  | cons f fs ih =>
      cases hpr : f.parseResult with
      | none =>
          rw [all_dfs_cons_none hpr] at h
          simp only [List.map_cons]
          exact List.mem_cons_of_mem _ (ih h)
      | some rows =>
          rw [all_dfs_cons_some hpr] at h
          simp only [List.flatten_cons, List.map_append, List.mem_append] at h
          rcases h with h | h
          · simp only [List.map_map, List.mem_map] at h
            obtain ⟨r, _, hr⟩ := h
            simp [← hr]
          · exact List.mem_cons_of_mem _ (ih h)

lemma dedup_replicate_append {α : Type} [DecidableEq α] (a : α) :
    ∀ (r : Nat), 0 < r → ∀ (rest : List α), a ∉ rest →
      (List.replicate r a ++ rest).dedup = a :: rest.dedup := by
  intro r
  induction r with
  | zero => intro h; exact absurd h (by simp)
  | succ k ih =>
      intro _ rest ha
      cases Nat.eq_zero_or_pos k with
      | inl h0 =>
          subst h0
          simpa using List.dedup_cons_of_not_mem ha
      | inr hk =>
          have hmem : a ∈ List.replicate k a ++ rest :=
            List.mem_append_left _ (List.mem_replicate.mpr ⟨by omega, rfl⟩)
          calc (List.replicate (k + 1) a ++ rest).dedup
              = (a :: (List.replicate k a ++ rest)).dedup := by
                simp [List.replicate_succ]
            _ = (List.replicate k a ++ rest).dedup := List.dedup_cons_of_mem hmem
            _ = a :: rest.dedup := ih hk rest ha

lemma map_conv_tag (n : String) (rows : List RawRow) :
    ((rows.map (fun r => ({ row := r, conversation_id := n } : CombinedRow))).map
      (fun r => r.conversation_id)) = List.replicate rows.length n := by
  induction rows with
  | nil => rfl
  | cons r rs ih => simp [List.replicate_succ, ih]

lemma provenance_dedup (files : List CsvFile)
    (hp : ∀ f ∈ files, f.parseResult.isSome)
    (hne : ∀ f ∈ files, 0 < rowCount f)
    (hnd : (files.map CsvFile.parentDirName).Nodup) :
    provenanceValues (all_dfs files).flatten = files.map CsvFile.parentDirName := by
  induction files with
  | nil => simp [provenanceValues, all_dfs]
  | cons f fs ih =>
      obtain ⟨rows, hrows⟩ := Option.isSome_iff_exists.mp (hp f (by simp))
      have hrest : ∀ g ∈ fs, g.parseResult.isSome := fun g hg => hp g (by simp [hg])
      have hnerest : ∀ g ∈ fs, 0 < rowCount g := fun g hg => hne g (by simp [hg])
      have hndrest : (fs.map CsvFile.parentDirName).Nodup := (List.nodup_cons.mp hnd).2
      have hnotin : f.parentDirName ∉
          (all_dfs fs).flatten.map (fun r => r.conversation_id) := by
        intro hmem
        exact (List.nodup_cons.mp hnd).1 (mem_provenance hmem)
      have hpos : 0 < rows.length := by
        have := hne f (by simp)
        simpa [rowCount, hrows] using this
      have ih' := ih hrest hnerest hndrest
      simp only [provenanceValues] at ih' ⊢
      rw [all_dfs_cons_some hrows, List.flatten_cons, List.map_append, map_conv_tag,
        dedup_replicate_append _ rows.length hpos _ hnotin, ih', List.map_cons]

/-- C1: if every discovered input file parses successfully, the combined
artifact written by `combine_csv_files` has exactly the sum of the input
files' row counts as its row count (`pd.concat` of the per-file dataframes
preserves and adds up row counts). -/
theorem C1_combined_row_count (files : List CsvFile) (l : List CombinedRow)
    (hp : ∀ f ∈ files, f.parseResult.isSome)
    (hw : combine_csv_files files = some l) :
    l.length = (files.map rowCount).sum := by
  unfold combine_csv_files at hw
  by_cases he : (all_dfs files).isEmpty
  · rw [if_pos he] at hw
    exact absurd hw (by simp)
  · rw [if_neg he] at hw
    rw [← Option.some.inj hw]
    exact flatten_all_dfs_length files hp

/-- Witness for C1 at a concrete input: two files with 2 and 1 rows combine
into a 3-row artifact. -/
theorem C1_combined_row_count_witness :
    ([⟨⟨["x"]⟩, "a"⟩, ⟨⟨["y"]⟩, "a"⟩, ⟨⟨["z"]⟩, "b"⟩] : List CombinedRow).length =
      (([⟨"a", some [⟨["x"]⟩, ⟨["y"]⟩]⟩, ⟨"b", some [⟨["z"]⟩]⟩] :
        List CsvFile).map rowCount).sum :=
  C1_combined_row_count
    [⟨"a", some [⟨["x"]⟩, ⟨["y"]⟩]⟩, ⟨"b", some [⟨["z"]⟩]⟩]
    [⟨⟨["x"]⟩, "a"⟩, ⟨⟨["y"]⟩, "a"⟩, ⟨⟨["z"]⟩, "b"⟩]
    (by decide) (by decide)

/-- C5 counterexample: one file (`N = 1`) that parses successfully but has
zero rows. The combined artifact is written (the `all_dfs` list is
nonempty), yet its provenance column has 0 distinct values, not `N = 1`:
an empty source file contributes no row, hence no provenance value. -/
theorem C5_counterexample :
    combine_csv_files [⟨"chat1", some []⟩] = some [] ∧
      (provenanceValues []).length = 0 ∧ ¬ (provenanceValues []).length = 1 := by
  refine ⟨rfl, rfl, by decide⟩

/-- C5 amended: if every discovered file parses successfully, every parsed
file has at least one row, and the parent directory names are pairwise
distinct, then the provenance column of the written combined artifact has
exactly `N` distinct values (for `N` input files), each equal to one input
file's parent directory name. (Without the extra hypotheses the count can
fall short of `N`: an empty file contributes no value, and files sharing a
parent directory name collapse into one value.) -/
theorem C5_provenance_distinct (files : List CsvFile) (l : List CombinedRow)
    (hp : ∀ f ∈ files, f.parseResult.isSome)
    (hne : ∀ f ∈ files, 0 < rowCount f)
    (hnd : (files.map CsvFile.parentDirName).Nodup)
    (hw : combine_csv_files files = some l) :
    (provenanceValues l).length = files.length ∧
      ∀ v ∈ provenanceValues l, v ∈ files.map CsvFile.parentDirName := by
  have hl : l = (all_dfs files).flatten := by
    unfold combine_csv_files at hw
    by_cases he : (all_dfs files).isEmpty
    · rw [if_pos he] at hw
      exact absurd hw (by simp)
    · rw [if_neg he] at hw
      exact (Option.some.inj hw).symm
  have hdd := provenance_dedup files hp hne hnd
  rw [hl, hdd]
  exact ⟨by simp, fun v hv => hv⟩

/-- Witness for C5 amended at a concrete input: two nonempty files with
distinct parent directory names give exactly 2 distinct provenance values. -/
theorem C5_provenance_distinct_witness :
    (provenanceValues [⟨⟨["x"]⟩, "a"⟩, ⟨⟨["y"]⟩, "a"⟩, ⟨⟨["z"]⟩, "b"⟩]).length =
        ([⟨"a", some [⟨["x"]⟩, ⟨["y"]⟩]⟩, ⟨"b", some [⟨["z"]⟩]⟩] :
          List CsvFile).length ∧
      ∀ v ∈ provenanceValues [⟨⟨["x"]⟩, "a"⟩, ⟨⟨["y"]⟩, "a"⟩, ⟨⟨["z"]⟩, "b"⟩],
        v ∈ ([⟨"a", some [⟨["x"]⟩, ⟨["y"]⟩]⟩, ⟨"b", some [⟨["z"]⟩]⟩] :
          List CsvFile).map CsvFile.parentDirName :=
  C5_provenance_distinct
    [⟨"a", some [⟨["x"]⟩, ⟨["y"]⟩]⟩, ⟨"b", some [⟨["z"]⟩]⟩]
    [⟨⟨["x"]⟩, "a"⟩, ⟨⟨["y"]⟩, "a"⟩, ⟨⟨["z"]⟩, "b"⟩]
    (by decide) (by decide) (by decide) (by decide)

/-- C6: a file whose parse fails is skipped and does not affect (or abort)
the aggregation of the remaining files — aggregating any file list gives
the same result as aggregating only its successfully parsing files — and
no artifact is written (`none`) exactly when there is no successfully
parsing file (zero files found, or all parses fail). -/
theorem C6_failed_files_skipped (files : List CsvFile) :
    combine_csv_files files =
        combine_csv_files (files.filter (fun f => f.parseResult.isSome)) ∧
      (combine_csv_files files = none ↔ ∀ f ∈ files, f.parseResult = none) := by
  have hfilter : all_dfs (files.filter (fun f => f.parseResult.isSome)) =
      all_dfs files := by
    induction files with
    | nil => rfl
    | cons f fs ih =>
        cases hpr : f.parseResult with
        | none =>
            rw [all_dfs_cons_none hpr]
            simpa [List.filter_cons, hpr] using ih
        | some rows =>
            rw [all_dfs_cons_some hpr]
            simp only [List.filter_cons, hpr, Option.isSome_some, if_true]
            rw [all_dfs_cons_some hpr, ih]
  constructor
  · unfold combine_csv_files
    rw [hfilter]
  · unfold combine_csv_files
    constructor
    · intro h
      by_cases he : (all_dfs files).isEmpty
      · intro f hf
        have hnil : all_dfs files = [] := List.isEmpty_iff.mp he
        have := List.filterMap_eq_nil_iff.mp hnil f hf
        simpa [processFile, Option.map_eq_none'] using this
      · rw [if_neg he] at h
        exact absurd h (by simp)
    · intro h
      have hnil : all_dfs files = [] := by
        apply List.filterMap_eq_nil_iff.mpr
        intro f hf
        simp [processFile, Option.map_eq_none', h f hf]
      rw [if_pos (by simp [hnil])]

/-! ## Analyzer model (`emoji_wrapped.py`) -/

/-- A pandas timestamp as produced by `pd.read_csv(..., parse_dates=[...])`:
the analyzer uses its `.year`, `.hour`, `.day_name()` and `.month_name()`
accessors. `month` is 1-based (1 = January); `hour` is 0–23 as pandas
guarantees. Sub-hour precision is never consulted by the analyzer. -/
structure Timestamp where
  year : Nat
  month : Nat
  day : Nat
  hour : Fin 24
deriving DecidableEq, Repr

/-- The fixed weekday order used at lines 130–131 of `emoji_wrapped.py`
(`days_order`), which is also the order of `pd.Timestamp.day_name()`
indices Monday = 0 … Sunday = 6. -/
def days_order : List String :=
  ["Monday", "Tuesday", "Wednesday", "Thursday", "Friday", "Saturday", "Sunday"]

/-- The fixed month order used at lines 141–142 of `emoji_wrapped.py`
(`months_order`). -/
def months_order : List String :=
  ["January", "February", "March", "April", "May", "June",
   "July", "August", "September", "October", "November", "December"]

/-- Gregorian leap-year test, used to model pandas calendar arithmetic. -/
def isLeapYear (y : Nat) : Bool :=
  (y % 4 == 0 && y % 100 != 0) || y % 400 == 0

/-- Days in month `m` (1-based) of year `y` in the Gregorian calendar. -/
def daysInMonth (y m : Nat) : Nat :=
  if m = 2 then (if isLeapYear y then 29 else 28)
  else if m = 4 ∨ m = 6 ∨ m = 9 ∨ m = 11 then 30 else 31

/-- Days in year `y` strictly before month `m` (1-based). -/
def daysBeforeMonth (y m : Nat) : Nat :=
  ((List.range (m - 1)).map (fun k => daysInMonth y (k + 1))).sum

/-- Rata-die day number of a proleptic Gregorian date: day 1 is
0001-01-01, which is a Monday. -/
def rataDie (y m d : Nat) : Nat :=
  365 * (y - 1) + (y - 1) / 4 - (y - 1) / 100 + (y - 1) / 400 +
    daysBeforeMonth y m + d

/-- Weekday index of a timestamp, 0 = Monday … 6 = Sunday, as used by
`pd.Timestamp.day_name()`. -/
def dayOfWeekIndex (t : Timestamp) : Nat :=
  (rataDie t.year t.month t.day - 1) % 7

/-- `pd.Timestamp.day_name()`: the full English weekday name. -/
def day_name (t : Timestamp) : String :=
  days_order.getD (dayOfWeekIndex t) ""

/-- `pd.Timestamp.month_name()`: the full English month name. -/
def month_name (t : Timestamp) : String :=
  months_order.getD (t.month - 1) ""

/-- The value of the `Text` cell of a row as pandas hands it to
`extract_emojis`: a missing cell becomes a non-string float NaN
(`CellValue.missing`), a numeric-looking cell may become a non-string
number (`CellValue.num`), a text cell is a string (`CellValue.str`). -/
inductive CellValue where
  | missing : CellValue
  | num : Int → CellValue
  | str : String → CellValue
deriving DecidableEq, Repr

/-- One entry of the static emoji reference table: the emoji character and
the optional `category` field of its metadata dictionary. -/
structure EmojiEntry where
  char : Char
  category : Option String
deriving DecidableEq, Repr

/-- Models the static reference table `emoji.EMOJI_DATA` of the external
`emoji` package (not repository code). The analyzer depends only on
(i) membership of a character in the table (`c in emoji.EMOJI_DATA`) and
(ii) the optional `category` field of an entry
(`emoji.EMOJI_DATA[c].get('category', 'Unknown')`), so a representative
finite table stands in for the full dataset: three emoji with categories
and one whose entry lacks a `category` key. -/
def EMOJI_DATA : List EmojiEntry :=
  [⟨'👋', some "People & Body"⟩,
   ⟨'🎉', some "Activities"⟩,
   ⟨'😀', some "Smileys & Emotion"⟩,
   ⟨'❤', none⟩]

/-- Dictionary lookup `emoji.EMOJI_DATA[c]`: `some` entry when the
character is a key of the table, `none` when it is not (a Python
`KeyError`). -/
def lookupEmoji (c : Char) : Option EmojiEntry :=
  EMOJI_DATA.find? (fun e => e.char == c)

/-- `EmojiAnalyzer.extract_emojis`: a non-string value yields `[]`
(`if not isinstance(text, str): return []`); a string is scanned
character-by-character, keeping exactly the characters that are keys of
`EMOJI_DATA` (`[c for c in text if c in emoji.EMOJI_DATA]`). -/
def extract_emojis (text : CellValue) : List Char :=
  match text with
  | CellValue.str s => s.data.filter (fun c => (lookupEmoji c).isSome)
  | _ => []

/-- One row of the combined CSV as the analyzer sees it after date
parsing: the `Message Date`, `Text` and `Type` columns. -/
structure Message where
  messageDate : Timestamp
  text : CellValue
  type : String
deriving DecidableEq, Repr

/-- The row filter applied at lines 41–44 of `emoji_wrapped.py`:
`(df['Message Date'].dt.year == 2024) & (df['Type'] == 'Outgoing')`. -/
def filter_2024_outgoing (df : List Message) : List Message :=
  df.filter (fun r => r.messageDate.year == 2024 && r.type == "Outgoing")

/-- The declared timestamp column name (`self.date_column`). -/
def date_column : String := "Message Date"

/-- The declared text column name (`self.text_column`). -/
def text_column : String := "Text"

/-- The header validation of `EmojiAnalyzer.load_data` lines 27–34: if a
required column is absent, the available columns are printed and a
`ValueError` is raised; the error value carries the printed column list
and the message. The code quotes the column name in the message; the
quotes are elided here. -/
def validateColumns (columns : List String) : Except (List String × String) Unit :=
  if date_column ∉ columns then
    Except.error (columns, "Could not find Message Date column.")
  else if text_column ∉ columns then
    Except.error (columns, "Could not find Text column.")
  else Except.ok ()

/-- The combined CSV as presented to the analyzer: the header row (peeked
at with `nrows=0`) and the parsed data rows. -/
structure AnalyzerCsv where
  header : List String
  rows : List Message
deriving Repr

/-- `EmojiAnalyzer.load_data`: validate the header, then read the full
table and keep only 2024 outgoing rows. A validation failure is logged and
re-raised (the `except` block at lines 48–50 re-raises), which the `error`
result models; on success `self.df` holds the filtered rows. -/
def load_data (csv : AnalyzerCsv) : Except (List String × String) (List Message) :=
  match validateColumns csv.header with
  | Except.error e => Except.error e
  | Except.ok _ => Except.ok (filter_2024_outgoing csv.rows)

/-- One row of `self.emoji_data`, built by `process_emoji_data`: one
record per emoji occurrence, with the originating timestamp and derived
temporal features. -/
structure EmojiRecord where
  message_date : Timestamp
  emoji : Char
  hour : Fin 24
  day_of_week : String
  month : String
deriving DecidableEq, Repr

/-- `EmojiAnalyzer.process_emoji_data`: for each row and each emoji
character extracted from its text, emit a record carrying the row's
timestamp, the character, and the timestamp's hour, weekday name and
month name. -/
def process_emoji_data (df : List Message) : List EmojiRecord :=
  df.flatMap (fun row =>
    (extract_emojis row.text).map (fun c =>
      { message_date := row.messageDate
        emoji := c
        hour := row.messageDate.hour
        day_of_week := day_name row.messageDate
        month := month_name row.messageDate }))

/-- The per-row emoji count `df['emoji_count']` (length of the extracted
emoji list). -/
def emoji_count (r : Message) : Nat :=
  (extract_emojis r.text).length

/-- `total_emojis = self.df['emoji_count'].sum()` in `basic_stats`. -/
def total_emojis (df : List Message) : Nat :=
  (df.map emoji_count).sum

/-- `messages_with_emojis = len(self.df[self.df['emoji_count'] > 0])` in
`basic_stats`. -/
def messages_with_emojis (df : List Message) : Nat :=
  (df.filter (fun r => 0 < emoji_count r)).length

/-- The percentage printed by `basic_stats`:
`messages_with_emojis / len(self.df) * 100`. Python division of two ints
raises `ZeroDivisionError` when `len(self.df) == 0`; `none` models that
unguarded error, `some` the computed value (as an exact rational standing
in for the Python float). -/
def emoji_percentage (df : List Message) : Option ℚ :=
  if df.length = 0 then none
  else some ((messages_with_emojis df : ℚ) / (df.length : ℚ) * 100)

/-- `emoji.EMOJI_DATA[emoji_char].get('category', 'Unknown')` from
`analyze_categories`: `none` models the `KeyError` raised when the
character is not a key of the table; for a known character the optional
`category` field is returned, defaulting to `"Unknown"` when the entry
has no such field. -/
def get_emoji_category (c : Char) : Option String :=
  (lookupEmoji c).map (fun e => e.category.getD "Unknown")

/-- The hourly series of `plot_time_patterns`:
`self.emoji_data.groupby('hour').size()` — the pairs (hour, count) for the
hours that occur in the data, in increasing hour order (groupby sorts its
keys), with **no** entry at all for an hour with no occurrences. -/
def hourlyBuckets (recs : List EmojiRecord) : List (Nat × Nat) :=
  ((List.range 24).filter (fun h => recs.any (fun r => r.hour.val == h))).map
    (fun h => (h, recs.countP (fun r => r.hour.val == h)))

/-- The weekday series of `plot_time_patterns`:
`groupby('day_of_week').size().reindex(days_order)` — one entry per label
of `days_order` in that fixed order; a label with occurrences carries its
count (`some`), a label with none carries NaN (`none`), pandas
`reindex`'s fill value. -/
def dailyBuckets (recs : List EmojiRecord) : List (String × Option Nat) :=
  days_order.map (fun d =>
    (d, if recs.any (fun r => r.day_of_week == d)
        then some (recs.countP (fun r => r.day_of_week == d)) else none))

/-- The month series of `plot_time_patterns`:
`groupby('month').size().reindex(months_order)` — one entry per label of
`months_order` in that fixed order, with NaN (`none`) for a month with no
occurrences. -/
def monthlyBuckets (recs : List EmojiRecord) : List (String × Option Nat) :=
  months_order.map (fun m =>
    (m, if recs.any (fun r => r.month == m)
        then some (recs.countP (fun r => r.month == m)) else none))

/-- C2: the analyzer's filter retains a row exactly when the row's parsed
timestamp has year 2024 and its `Type` value is `"Outgoing"`; a row
failing either predicate (a 2023 outgoing row, a 2024 incoming row) is
excluded. -/
theorem C2_filter_iff (df : List Message) (r : Message) :
    r ∈ filter_2024_outgoing df ↔
      r ∈ df ∧ r.messageDate.year = 2024 ∧ r.type = "Outgoing" := by
  simp [filter_2024_outgoing, List.mem_filter, and_assoc]

/-- C3: emoji extraction on a non-string value produces no emojis; on a
string it keeps, in order (a sublist of the text), exactly the characters
present in the `EMOJI_DATA` reference table; on the text
"Hi 👋 there 🎉🎉" it yields exactly the 3 characters ['👋', '🎉', '🎉'];
and the expand stage on a row with that text produces exactly 3 records,
each carrying the source row's timestamp. -/
theorem C3_extraction :
    (∀ v : CellValue, (∀ s, v ≠ CellValue.str s) → extract_emojis v = []) ∧
    (∀ s : String, List.Sublist (extract_emojis (CellValue.str s)) s.data ∧
      ∀ c : Char, c ∈ extract_emojis (CellValue.str s) ↔
        c ∈ s.data ∧ (lookupEmoji c).isSome) ∧
    extract_emojis (CellValue.str "Hi 👋 there 🎉🎉") = ['👋', '🎉', '🎉'] ∧
    (∀ t : Timestamp,
      (process_emoji_data
        [{ messageDate := t, text := CellValue.str "Hi 👋 there 🎉🎉",
           type := "Outgoing" }]).length = 3 ∧
      ∀ rec ∈ process_emoji_data
        [{ messageDate := t, text := CellValue.str "Hi 👋 there 🎉🎉",
           type := "Outgoing" }],
        rec.message_date = t) := by
  refine ⟨?_, ?_, by decide, ?_⟩
  · intro v hv
    cases v with
    | missing => rfl
    | num n => rfl
    | str s => exact absurd rfl (hv s)
  · intro s
    exact ⟨List.filter_sublist _, fun c => by
      simp [extract_emojis, List.mem_filter]⟩
  · intro t
    constructor
    · simp [process_emoji_data]
      decide
    · intro rec hrec
      simp only [process_emoji_data, List.flatMap_cons, List.flatMap_nil,
        List.append_nil, List.mem_map] at hrec
      obtain ⟨c, _, hc⟩ := hrec
      rw [← hc]

/-- Witness for C3 at concrete inputs: a missing text value yields no
emojis, and the expand stage on a concrete 2024 row with the test text
yields 3 records. -/
theorem C3_extraction_witness :
    extract_emojis CellValue.missing = [] ∧
    (process_emoji_data
      [{ messageDate := ⟨2024, 3, 15, 14⟩,
         text := CellValue.str "Hi 👋 there 🎉🎉",
         type := "Outgoing" }]).length = 3 :=
  ⟨C3_extraction.1 CellValue.missing (fun _ h => nomatch h),
   (C3_extraction.2.2.2 ⟨2024, 3, 15, 14⟩).1⟩

/-- C7: if either required column is absent from the header, `load_data`
fails with a validation error that carries the available column listing
(re-raised by the `except` block, terminating the run); if both are
present, this check raises nothing and the filtered rows are returned. -/
theorem C7_header_validation (csv : AnalyzerCsv) :
    (date_column ∈ csv.header ∧ text_column ∈ csv.header →
      load_data csv = Except.ok (filter_2024_outgoing csv.rows)) ∧
    (date_column ∉ csv.header →
      load_data csv =
        Except.error (csv.header, "Could not find Message Date column.")) ∧
    (date_column ∈ csv.header ∧ text_column ∉ csv.header →
      load_data csv =
        Except.error (csv.header, "Could not find Text column.")) := by
  refine ⟨?_, ?_, ?_⟩
  · rintro ⟨h1, h2⟩
    simp [load_data, validateColumns, h1, h2]
  · intro h1
    simp [load_data, validateColumns, h1]
  · rintro ⟨h1, h2⟩
    simp [load_data, validateColumns, h1, h2]

/-- Witness for C7 at a concrete header containing both required columns:
loading succeeds with the filtered (here empty) row set. -/
theorem C7_header_validation_witness :
    load_data ⟨["Message Date", "Text", "Type"], []⟩ =
      Except.ok (filter_2024_outgoing []) :=
  (C7_header_validation ⟨["Message Date", "Text", "Type"], []⟩).1
    ⟨by decide, by decide⟩

/-- C8: the percentage of messages with emojis printed by `basic_stats`
fails (unguarded `ZeroDivisionError`, modelled as `none`) exactly when the
filtered row set is empty; for every non-empty row set the computation
succeeds. -/
theorem C8_percentage_division (df : List Message) :
    emoji_percentage df = none ↔ df = [] := by
  unfold emoji_percentage
  by_cases h : df.length = 0
  · simp [h, List.length_eq_zero.mp h]
  · simp only [h, if_false]
    constructor
    · intro hsome
      exact absurd hsome (by simp)
    · intro he
      exact absurd (by simp [he] : df.length = 0) h

/-- C10: the total emoji count of `basic_stats` (the sum of the per-row
emoji counts) equals the number of emoji-occurrence records produced by
`process_emoji_data`. -/
theorem C10_total_equals_expanded (df : List Message) :
    total_emojis df = (process_emoji_data df).length := by
  induction df with
  | nil => rfl
  | cons m ms ih =>
      simp only [total_emojis, process_emoji_data, List.map_cons, List.sum_cons,
        List.flatMap_cons, List.length_append, List.length_map] at ih ⊢
      simpa [emoji_count] using congrArg (fun k => (extract_emojis m.text).length + k) ih

/-- C9 counterexample: for a character not in the reference table (here
the letter x) the lookup `emoji.EMOJI_DATA[c]` fails (a `KeyError`,
modelled as `none`); the category is **not** the default `"Unknown"`. The
`.get('category', 'Unknown')` default only applies to a character that is
in the table but whose entry has no `category` field. -/
theorem C9_counterexample :
    lookupEmoji 'x' = none ∧ get_emoji_category 'x' = none ∧
      ¬ get_emoji_category 'x' = some "Unknown" := by
  decide

/-- C9 amended: every emoji character in the occurrence table produced by
the expand stage is a key of the reference table, so its category lookup
succeeds (never errors) — extraction already filtered to known
characters; for a known character the optional `category` field is
returned, with `"Unknown"` as the default when the entry lacks one; a
character absent from the table would make the lookup error (`KeyError`),
not yield `"Unknown"`. -/
theorem C9_category_lookup :
    (∀ df : List Message, ∀ rec ∈ process_emoji_data df,
      (get_emoji_category rec.emoji).isSome) ∧
    (∀ c e, lookupEmoji c = some e →
      get_emoji_category c = some (e.category.getD "Unknown")) ∧
    (∀ c, lookupEmoji c = none → get_emoji_category c = none) := by
  refine ⟨?_, ?_, ?_⟩
  · intro df rec hrec
    simp only [process_emoji_data, List.mem_flatMap, List.mem_map] at hrec
    obtain ⟨row, _, c, hc, hrecEq⟩ := hrec
    have hsome : (lookupEmoji c).isSome := by
      cases htext : row.text with
      | str s =>
          rw [htext] at hc
          exact (List.mem_filter.mp hc).2
      | missing =>
          rw [htext] at hc
          exact absurd hc (by simp [extract_emojis])
      | num n =>
          rw [htext] at hc
          exact absurd hc (by simp [extract_emojis])
    obtain ⟨e, he⟩ := Option.isSome_iff_exists.mp hsome
    rw [← hrecEq]
    simp [get_emoji_category, he]
  · intro c e he
    simp [get_emoji_category, he]
  · intro c he
    simp [get_emoji_category, he]

/-- Witness for C9 amended at concrete characters: the category of 🎉 is
found; ❤ is in the table without a category field, so it defaults to
Unknown; the letter y is not in the table, so its lookup errors. -/
theorem C9_category_lookup_witness :
    (get_emoji_category '🎉').isSome ∧
      get_emoji_category '❤' = some "Unknown" ∧
      get_emoji_category 'y' = none :=
  ⟨C9_category_lookup.1
      [{ messageDate := ⟨2024, 1, 1, 0⟩, text := CellValue.str "🎉",
         type := "Outgoing" }]
      ⟨⟨2024, 1, 1, 0⟩, '🎉', 0, "Monday", "January"⟩ (by decide),
   C9_category_lookup.2.1 '❤' ⟨'❤', none⟩ (by decide),
   C9_category_lookup.2.2 'y' (by decide)⟩

/-- C4 counterexample: a single occurrence at hour 0 on a Monday in
January. The hourly series of `plot_time_patterns` has a single bucket
(hour 0), not 24 — hours with no occurrences are silently omitted because
`groupby('hour').size()` is never reindexed over 0–23 — and the reindexed
weekday series carries NaN (`none`), not a zero count, for the empty
Tuesday bucket. -/
theorem C4_counterexample :
    (hourlyBuckets [⟨⟨2024, 1, 1, 0⟩, '🎉', 0, "Monday", "January"⟩]).length = 1 ∧
    ¬ (hourlyBuckets
        [⟨⟨2024, 1, 1, 0⟩, '🎉', 0, "Monday", "January"⟩]).length = 24 ∧
    ("Tuesday", (none : Option Nat)) ∈
      dailyBuckets [⟨⟨2024, 1, 1, 0⟩, '🎉', 0, "Monday", "January"⟩] ∧
    ¬ ("Tuesday", (some 0 : Option Nat)) ∈
      dailyBuckets [⟨⟨2024, 1, 1, 0⟩, '🎉', 0, "Monday", "January"⟩] := by
  decide

/-- C4 amended: the weekday and month series enumerate all 7 weekday /
12 month buckets in fixed calendar order, but an empty bucket carries a
missing value (NaN, the `reindex` fill), not a zero count; the hourly
series enumerates, in increasing order, exactly the hours 0–23 that have
at least one occurrence — empty hour buckets are silently omitted. -/
theorem C4_bucket_enumeration (recs : List EmojiRecord) :
    ((dailyBuckets recs).map Prod.fst = days_order) ∧
    ((monthlyBuckets recs).map Prod.fst = months_order) ∧
    (∀ d ∈ days_order, (∀ r ∈ recs, ¬ r.day_of_week = d) →
      (d, (none : Option Nat)) ∈ dailyBuckets recs) ∧
    (∀ m ∈ months_order, (∀ r ∈ recs, ¬ r.month = m) →
      (m, (none : Option Nat)) ∈ monthlyBuckets recs) ∧
    (∀ h : Nat, h ∈ (hourlyBuckets recs).map Prod.fst ↔
      h < 24 ∧ ∃ r ∈ recs, r.hour.val = h) := by
  refine ⟨?_, ?_, ?_, ?_, ?_⟩
  · rfl
  · rfl
  · intro d hd hnone
    have hany : recs.any (fun r => r.day_of_week == d) = false := by
      simp only [List.any_eq_false, beq_iff_eq]
      exact hnone
    exact List.mem_map.mpr ⟨d, hd, by simp [hany]⟩
  · intro m hm hnone
    have hany : recs.any (fun r => r.month == m) = false := by
      simp only [List.any_eq_false, beq_iff_eq]
      exact hnone
    exact List.mem_map.mpr ⟨m, hm, by simp [hany]⟩
  · intro h
    simp [hourlyBuckets, List.map_map, Function.comp, List.mem_filter,
      List.mem_range, List.any_eq_true]

/-- Witness for C4 amended at a concrete occurrence table: the weekday
series still lists all seven weekdays, and the empty Wednesday bucket
carries a missing value. -/
theorem C4_bucket_enumeration_witness :
    ((dailyBuckets [⟨⟨2024, 1, 1, 0⟩, '🎉', 0, "Monday", "January"⟩]).map
        Prod.fst = days_order) ∧
    ("Wednesday", (none : Option Nat)) ∈
      dailyBuckets [⟨⟨2024, 1, 1, 0⟩, '🎉', 0, "Monday", "January"⟩] :=
  ⟨(C4_bucket_enumeration [⟨⟨2024, 1, 1, 0⟩, '🎉', 0, "Monday", "January"⟩]).1,
   (C4_bucket_enumeration
      [⟨⟨2024, 1, 1, 0⟩, '🎉', 0, "Monday", "January"⟩]).2.2.1 "Wednesday"
      (by decide) (by decide)⟩

end EmojiWrapped
